import Mathlib

/-!
Verification of the bare-mpv adapter (packages/bare-mpv/binding.cc).

The adapter is pure boundary-crossing glue between libmpv (a handle-based,
synchronous, return-code C API) and a JavaScript host runtime.  The shallow
embedding below models each exported operation as a pure Lean function.
External collaborators are modelled as oracles:

* the libmpv engine is an `MpvEngine` record of per-call result functions,
  and single native calls (initialize, command, render, update) take their
  result for the one call the adapter makes as an explicit argument;
* byte buffers (the malloc-ed internal pixel buffer and the js arraybuffers
  handed to script code) live in an explicit `Heap` of byte lists addressed
  by index, so freshness and aliasing of buffers are expressible;
* libmpv requires a valid (non-NULL) handle on every call; passing a nulled
  pointer is undefined behavior, modelled by the `JsOutcome.ub` outcome
  produced by the native-call models.  The adapter definitions pass the
  stored pointer to the native model unconditionally, mirroring the C.

Double payloads cross the adapter unchanged (unboxed from a script number,
passed to mpv, or boxed back), so they are modelled by an opaque integer
payload; the adapter logic never inspects them.
-/

namespace BareMpv

/-- Outcome of one exported adapter call as observed by script code:
a normal return, a thrown error (js_throw_error), or undefined behavior
from handing a nulled native pointer to libmpv. -/
inductive JsOutcome (α : Type) where
  | ok (v : α)
  | raise (msg : String)
  | ub
  deriving DecidableEq, Repr

/-- Predicate picking out the thrown-error outcome. -/
def JsOutcome.isRaise {α : Type} : JsOutcome α → Bool
  | .raise _ => true
  | _ => false

/-- Handle wrapper for mpv_handle (struct bare_mpv_handle_t): the stored
engine pointer, with `none` modelling NULL. -/
structure bare_mpv_handle_t where
  mpv : Option Unit
  deriving DecidableEq, Repr

/-- Handle wrapper for mpv_render_context (struct bare_mpv_render_t):
context pointer, dimensions, and the RGBA pixel buffer pointer, the latter
an index into the byte-buffer heap (`none` modelling NULL). -/
structure bare_mpv_render_t where
  ctx : Option Unit
  width : Int
  height : Int
  buffer : Option Nat
  deriving DecidableEq, Repr

/-- Byte-buffer heap: every malloc-ed pixel buffer and every js arraybuffer
is a list of bytes addressed by its index.  Allocation appends a cell and
returns its fresh index, so distinct allocations never alias. -/
structure Heap where
  cells : List (List Nat)
  deriving DecidableEq, Repr

/-- Allocate a fresh cell holding `content`; returns the new heap and the
fresh index. -/
def Heap.alloc (hp : Heap) (content : List Nat) : Heap × Nat :=
  ({ cells := hp.cells ++ [content] }, hp.cells.length)

/-- Read the bytes of cell `i`. -/
def Heap.read (hp : Heap) (i : Nat) : List Nat :=
  hp.cells.getD i []

/-- Overwrite the bytes of cell `i`. -/
def Heap.write (hp : Heap) (i : Nat) (content : List Nat) : Heap :=
  { cells := hp.cells.set i content }

/-- The external libmpv engine as an oracle giving the result of each native
property call the adapter can make.  For `getString` the Option models the
returned char pointer (`none` = NULL).  Double payloads are opaque. -/
structure MpvEngine where
  getDouble : String → Int × Int
  getFlag : String → Int × Int
  getString : String → Int × Option String
  setDouble : String → Int → Int
  setFlag : String → Int → Int
  setString : String → String → Int

/-- Script value produced by getProperty: a boxed double, boolean, string,
or undefined (the Absent sentinel). -/
inductive PropValue where
  | num (v : Int)
  | boolean (b : Bool)
  | str (s : String)
  | undefined
  deriving DecidableEq, Repr

/-- Script value passed to setProperty: the three runtime types that
dispatch to a native setter, plus representatives of every other js_typeof
result. -/
inductive JsValue where
  | num (v : Int)
  | boolean (b : Bool)
  | str (s : String)
  | undefined
  | nullValue
  | object
  | function
  deriving DecidableEq, Repr

/-- True exactly for the three value types setProperty dispatches on. -/
def JsValue.dispatchable : JsValue → Bool
  | .num _ => true
  | .boolean _ => true
  | .str _ => true
  | _ => false

/-- bare_mpv_create: mpv_create yields a fresh engine pointer or NULL
(`native` = none).  On NULL the adapter throws "Failed to create mpv
instance"; otherwise it stores the pointer in a freshly allocated handle. -/
def bare_mpv_create (native : Option Unit) : JsOutcome bare_mpv_handle_t :=
  match native with
  | none => .raise "Failed to create mpv instance"
  | some m => .ok { mpv := some m }

/-- bare_mpv_initialize: sets the three fixed options (vo=libmpv,
hwdec=auto, keep-open=yes) and calls mpv_initialize on the stored pointer,
returning the native status boxed as a number.  The native calls receive
handle->mpv unconditionally, so a nulled handle is undefined behavior.
`initStatus` is the oracle for the mpv_initialize return value. -/
def bare_mpv_initialize (initStatus : Int) (handle : bare_mpv_handle_t) : JsOutcome Int :=
  match handle.mpv with
  | none => .ub
  | some _ => .ok initStatus

/-- bare_mpv_destroy: if handle->mpv is non-NULL, mpv_terminate_destroy is
called and the pointer nulled; the C function always returns NULL (boxed as
no value).  The Nat counts mpv_terminate_destroy invocations. -/
def bare_mpv_destroy (handle : bare_mpv_handle_t) :
    JsOutcome Unit × bare_mpv_handle_t × Nat :=
  match handle.mpv with
  | some _ => (.ok (), { mpv := none }, 1)
  | none => (.ok (), handle, 0)

/-- bare_mpv_command: marshals the argument strings into a NULL-terminated
pointer array and forwards them to mpv_command on handle->mpv, returning
the native status (`cmdStatus`, the oracle for this call).  A nulled handle
makes the native call undefined behavior. -/
def bare_mpv_command (cmdStatus : Int) (handle : bare_mpv_handle_t)
    (args : List String) : JsOutcome Int :=
  match handle.mpv with
  | none => .ub
  | some _ =>
    let _ := args
    .ok cmdStatus

/-- bare_mpv_get_property: probes MPV_FORMAT_DOUBLE first, then
MPV_FORMAT_FLAG, then MPV_FORMAT_STRING, returning the first accepted
representation (status >= 0); the string branch additionally requires the
returned pointer to be non-NULL (the C condition status >= 0 && str).  When
no probe yields a value the function returns undefined.  Every probe passes
handle->mpv to the engine, so a nulled handle is undefined behavior. -/
def bare_mpv_get_property (e : MpvEngine) (handle : bare_mpv_handle_t)
    (name : String) : JsOutcome PropValue :=
  match handle.mpv with
  | none => .ub
  | some _ =>
    let d := e.getDouble name
    if d.1 ≥ 0 then .ok (.num d.2)
    else
      let f := e.getFlag name
      if f.1 ≥ 0 then .ok (.boolean (f.2 != 0))
      else
        let s := e.getString name
        if s.1 ≥ 0 then
          match s.2 with
          | some str => .ok (.str str)
          | none => .ok .undefined
        else .ok .undefined

/-- bare_mpv_set_property: js_typeof inspects the runtime type of the value
once; a number dispatches to mpv_set_property with MPV_FORMAT_DOUBLE, a
boolean to MPV_FORMAT_FLAG (flag = value ? 1 : 0), a string to
mpv_set_property_string; any other type leaves the status at its initial -1
with no native call.  The Nat counts native setter invocations.  A
dispatched call passes handle->mpv, so a nulled handle is undefined
behavior there. -/
def bare_mpv_set_property (e : MpvEngine) (handle : bare_mpv_handle_t)
    (name : String) (value : JsValue) : JsOutcome Int × Nat :=
  match value with
  | .num x =>
    (match handle.mpv with
     | some _ => .ok (e.setDouble name x)
     | none => .ub, 1)
  | .boolean b =>
    (match handle.mpv with
     | some _ => .ok (e.setFlag name (if b then 1 else 0))
     | none => .ub, 1)
  | .str s =>
    (match handle.mpv with
     | some _ => .ok (e.setString name s)
     | none => .ub, 1)
  | _ => (.ok (-1), 0)

/-- Size in bytes of the RGBA pixel buffer: width * height * 4, the size_t
argument of malloc in render_create and the buffer_size of render_frame.
A nonpositive product collapses to 0 under toNat. -/
def bufSize (w h : Int) : Nat := (w * h * 4).toNat

/-- bare_mpv_render_create: mpv_render_context_create with the software
renderer on the engine pointer returns `ctxStatus`; a negative status
throws "Failed to create render context".  On success the adapter
allocates the width*height*4 internal pixel buffer (malloc; contents
uninitialized, modelled as zeros) and packages context pointer, dimensions
and buffer pointer into a fresh render handle.  A nulled engine handle
makes the native create call undefined behavior. -/
def bare_mpv_render_create (engineHandle : bare_mpv_handle_t) (ctxStatus : Int)
    (hp : Heap) (width height : Int) : JsOutcome bare_mpv_render_t × Heap :=
  match engineHandle.mpv with
  | none => (.ub, hp)
  | some _ =>
    if ctxStatus < 0 then (.raise "Failed to create render context", hp)
    else
      let a := hp.alloc (List.replicate (bufSize width height) 0)
      (.ok { ctx := some (), width := width, height := height, buffer := some a.2 },
       a.1)

/-- bare_mpv_render_frame: if handle->ctx or handle->buffer is NULL, the
null sentinel is returned immediately, no native call is made and the heap
is untouched.  Otherwise mpv_render_context_render writes the frame bytes
(`frame`, the native oracle output for this one call) into the internal
buffer and returns `status`; a negative status yields the same null
sentinel.  On success a fresh arraybuffer of buffer_size = width*height*4
bytes is allocated and memcpy copies buffer_size bytes of the internal
buffer into it; the fresh buffer is returned.  No field of the render
handle is ever written. -/
def bare_mpv_render_frame (status : Int) (frame : List Nat) (hp : Heap)
    (handle : bare_mpv_render_t) :
    JsOutcome (Option Nat) × Heap × bare_mpv_render_t :=
  match handle.ctx, handle.buffer with
  | some _, some b =>
    let hp1 := hp.write b frame
    if status < 0 then (.ok none, hp1, handle)
    else
      let size := bufSize handle.width handle.height
      let a := hp1.alloc ((hp1.read b).take size)
      (.ok (some a.2), a.1, handle)
  | _, _ => (.ok none, hp, handle)

/-- Outcome component of one render_frame call. -/
def frameOut (status : Int) (frame : List Nat) (hp : Heap)
    (handle : bare_mpv_render_t) : JsOutcome (Option Nat) :=
  (bare_mpv_render_frame status frame hp handle).1

/-- Heap component of one render_frame call. -/
def frameHeap (status : Int) (frame : List Nat) (hp : Heap)
    (handle : bare_mpv_render_t) : Heap :=
  (bare_mpv_render_frame status frame hp handle).2.1

/-- bare_mpv_render_free: mpv_render_context_free is called if handle->ctx
is non-NULL, then free(handle->buffer) if that is non-NULL, each guard
independent of the other, and both pointers are nulled; the C function
returns NULL.  The Nat counts native release calls (mpv_render_context_free
plus free). -/
def bare_mpv_render_free (handle : bare_mpv_render_t) :
    JsOutcome Unit × bare_mpv_render_t × Nat :=
  let step1 : bare_mpv_render_t × Nat :=
    match handle.ctx with
    | some _ => ({ handle with ctx := none }, 1)
    | none => (handle, 0)
  let step2 : bare_mpv_render_t × Nat :=
    match step1.1.buffer with
    | some _ => ({ step1.1 with buffer := none }, step1.2 + 1)
    | none => (step1.1, step1.2)
  (.ok (), step2.1, step2.2)

/-- MPV_RENDER_UPDATE_FRAME flag bit (1 << 0) from mpv/render.h. -/
def MPV_RENDER_UPDATE_FRAME : Nat := 1

/-- Native model of mpv_render_context_update: on a valid context it
returns the pending update flags (`pending`, the oracle for this one
call); libmpv requires a valid context, so a NULL argument is undefined
behavior. -/
def mpv_render_context_update (pending : Nat) (ctx : Option Unit) : JsOutcome Nat :=
  match ctx with
  | some _ => .ok pending
  | none => .ub

/-- bare_mpv_render_update: hands handle->ctx to mpv_render_context_update
with no null check, then reports whether the MPV_RENDER_UPDATE_FRAME bit is
set in the returned flags.  No field of the handle is written. -/
def bare_mpv_render_update (pending : Nat) (handle : bare_mpv_render_t) :
    JsOutcome Bool × bare_mpv_render_t :=
  (match mpv_render_context_update pending handle.ctx with
   | .ok flags => .ok ((flags &&& MPV_RENDER_UPDATE_FRAME) != 0)
   | .raise m => .raise m
   | .ub => .ub,
   handle)

/-- One post-creation operation on a render handle, carrying the native
oracle data for that call. -/
inductive RenderOp where
  | frame (status : Int) (bytes : List Nat)
  | update (pending : Nat)
  | free

/-- Apply one render-handle operation to the heap and handle state. -/
def applyRenderOp (hp : Heap) (handle : bare_mpv_render_t) :
    RenderOp → Heap × bare_mpv_render_t
  | .frame s f =>
    let r := bare_mpv_render_frame s f hp handle
    (r.2.1, r.2.2)
  | .update p => (hp, (bare_mpv_render_update p handle).2)
  | .free => (hp, (bare_mpv_render_free handle).2.1)

/-- Apply a sequence of render-handle operations. -/
def applyRenderOps (hp : Heap) (handle : bare_mpv_render_t) :
    List RenderOp → Heap × bare_mpv_render_t
  | [] => (hp, handle)
  | op :: rest =>
    let r := applyRenderOp hp handle op
    applyRenderOps r.1 r.2 rest

/-- Engine oracle on which every property probe fails. -/
def engAbsent : MpvEngine where
  getDouble := fun _ => (-10, 0)
  getFlag := fun _ => (-10, 0)
  getString := fun _ => (-10, none)
  setDouble := fun _ _ => 0
  setFlag := fun _ _ => 0
  setString := fun _ _ => 0

/-- Engine oracle whose string probe reports success with a NULL pointer
while the double and flag probes fail. -/
def engNullStr : MpvEngine where
  getDouble := fun _ => (-1, 0)
  getFlag := fun _ => (-1, 0)
  getString := fun _ => (0, none)
  setDouble := fun _ _ => 0
  setFlag := fun _ _ => 0
  setString := fun _ _ => 0

/-- Live engine handle wrapping a non-NULL mpv pointer. -/
def liveEngineHandle : bare_mpv_handle_t := { mpv := some () }

end BareMpv

namespace BareMpv

theorem heap_alloc_length (hp : Heap) (c : List Nat) :
    (hp.alloc c).1.cells.length = hp.cells.length + 1 := by
  simp [Heap.alloc]

theorem heap_write_length (hp : Heap) (i : Nat) (c : List Nat) :
    (hp.write i c).cells.length = hp.cells.length := by
  simp [Heap.write]

theorem heap_read_alloc_self (hp : Heap) (c : List Nat) :
    (hp.alloc c).1.read hp.cells.length = c := by
  simp [Heap.alloc, Heap.read, List.getD_eq_getElem?_getD, List.getElem?_append_right]

theorem heap_read_alloc_old (hp : Heap) (c : List Nat) (i : Nat)
    (h : i < hp.cells.length) :
    (hp.alloc c).1.read i = hp.read i := by
  simp [Heap.alloc, Heap.read, List.getD_eq_getElem?_getD, List.getElem?_append_left h]

theorem heap_read_write_self (hp : Heap) (i : Nat) (c : List Nat)
    (h : i < hp.cells.length) :
    (hp.write i c).read i = c := by
  simp [Heap.write, Heap.read, List.getD_eq_getElem?_getD, List.getElem?_set_self,
    h, List.getElem?_eq_getElem]

theorem heap_read_write_ne (hp : Heap) (i j : Nat) (c : List Nat) (h : i ≠ j) :
    (hp.write i c).read j = hp.read j := by
  simp [Heap.write, Heap.read, List.getD_eq_getElem?_getD, List.getElem?_set_ne h]

end BareMpv

namespace BareMpv

/-- C1 (amended): renderFree nulls the context reference, but a subsequent
renderUpdate is not a guarded no-op — bare_mpv_render_update performs no
null check and hands the nulled context straight to
mpv_render_context_update, for which a NULL context is undefined behavior
(the .ub outcome), not a normal return; the handle is otherwise left as
renderFree left it.  The post-free operations that are safe are renderFree
and renderFrame, not renderUpdate. -/
theorem C1_renderUpdate_after_free_dereferences (handle : bare_mpv_render_t)
    (pending : Nat) :
    (bare_mpv_render_free handle).2.1.ctx = none ∧
    bare_mpv_render_update pending (bare_mpv_render_free handle).2.1 =
      (JsOutcome.ub, (bare_mpv_render_free handle).2.1) := by
  obtain ⟨c, w, h, b⟩ := handle
  cases c <;> cases b <;>
    simp [bare_mpv_render_free, bare_mpv_render_update, mpv_render_context_update]

/-- C1 counterexample: free a live 2-by-2 render handle with
bare_mpv_render_free, then call bare_mpv_render_update on it.  The update
call hands the nulled context to mpv_render_context_update, whose outcome
is undefined behavior (.ub) rather than a normal return — so a post-free
renderUpdate is not a safe no-op, refuting the claim at this input. -/
theorem C1_counterexample :
    (bare_mpv_render_update 1
      (bare_mpv_render_free
        { ctx := some (), width := 2, height := 2, buffer := some 0 }).2.1).1 =
      JsOutcome.ub := by
  rfl

/-- C6: the adapter raises only on construction failure.  bare_mpv_create
raises exactly when mpv_create returned NULL; bare_mpv_render_create (on a
live engine handle) raises exactly when mpv_render_context_create returned
a negative status; and for every input, initialize, command, getProperty,
setProperty, renderFrame, renderFree, renderUpdate and destroy never raise
— their failures are negative status codes or null/absent sentinels. -/
theorem C6_raise_only_on_construction :
    (∀ m : Unit, (bare_mpv_create (some m)).isRaise = false) ∧
    (bare_mpv_create none).isRaise = true ∧
    (∀ eh cs hp w h, eh.mpv = some () → ¬ cs < 0 →
       ((bare_mpv_render_create eh cs hp w h).1).isRaise = false) ∧
    (∀ eh cs hp w h, eh.mpv = some () → cs < 0 →
       ((bare_mpv_render_create eh cs hp w h).1).isRaise = true) ∧
    (∀ st eh, ( bare_mpv_initialize st eh).isRaise = false) ∧
    (∀ cs eh args, (bare_mpv_command cs eh args).isRaise = false) ∧
    (∀ e eh name, (bare_mpv_get_property e eh name).isRaise = false) ∧
    (∀ e eh name v, ((bare_mpv_set_property e eh name v).1).isRaise = false) ∧
    (∀ s f hp rh, ((bare_mpv_render_frame s f hp rh).1).isRaise = false) ∧
    (∀ rh, ((bare_mpv_render_free rh).1).isRaise = false) ∧
    (∀ p rh, ((bare_mpv_render_update p rh).1).isRaise = false) ∧
    (∀ eh, ((bare_mpv_destroy eh).1).isRaise = false) := by
  refine ⟨?_, ?_, ?_, ?_, ?_, ?_, ?_, ?_, ?_, ?_, ?_, ?_⟩
  · intro m; rfl
  · rfl
  · intro eh cs hp w h hl hcs
    simp [bare_mpv_render_create, hl, hcs, JsOutcome.isRaise]
  · intro eh cs hp w h hl hcs
    simp [bare_mpv_render_create, hl, hcs, JsOutcome.isRaise]
  · intro st eh
    rcases eh with ⟨_ | _⟩ <;> rfl
  · intro cs eh args
    rcases eh with ⟨_ | _⟩ <;> rfl
  · intro e eh name
    rcases eh with ⟨_ | _⟩
    · rfl
    · simp only [bare_mpv_get_property]
      split
    <;> first
      | rfl
      | (split <;> first
          | rfl
          | (split <;> first | rfl | (split <;> rfl)))
  · intro e eh name v
    rcases eh with ⟨_ | _⟩ <;> rcases v <;> rfl
  · intro s f hp rh
    rcases rh with ⟨c, w, h, b⟩
    rcases c <;> rcases b <;> simp only [bare_mpv_render_frame] <;>
      first | rfl | (split <;> rfl)
  · intro rh
    rcases rh with ⟨c, w, h, b⟩
    rcases c <;> rcases b <;> rfl
  · intro p rh
    rcases rh with ⟨c, w, h, b⟩
    rcases c <;> rfl
  · intro eh
    rcases eh with ⟨_ | _⟩ <;> rfl

/-- C7: bare_mpv_render_free returns nothing, releases the context if
present and the buffer if present — one native release call per pointer
actually held, each guard independent of the other — nulls both references,
and a second bare_mpv_render_free on the result raises nothing, performs
zero release calls and leaves the state unchanged. -/
theorem C7_renderFree_idempotent (handle : bare_mpv_render_t) :
    (bare_mpv_render_free handle).1 = .ok () ∧
    (bare_mpv_render_free handle).2.1.ctx = none ∧
    (bare_mpv_render_free handle).2.1.buffer = none ∧
    (bare_mpv_render_free handle).2.2 =
      ((if handle.ctx.isSome then 1 else 0) +
       (if handle.buffer.isSome then 1 else 0)) ∧
    bare_mpv_render_free (bare_mpv_render_free handle).2.1 =
      (.ok (), (bare_mpv_render_free handle).2.1, 0) := by
  obtain ⟨c, w, h, b⟩ := handle
  cases c <;> cases b <;> simp [bare_mpv_render_free]

/-- C8: bare_mpv_destroy returns nothing, calls mpv_terminate_destroy
exactly when the wrapped instance is still live, nulls the reference, and a
second bare_mpv_destroy on the result performs no second termination, does
not raise, and leaves the state unchanged. -/
theorem C8_destroy_idempotent (handle : bare_mpv_handle_t) :
    (bare_mpv_destroy handle).1 = .ok () ∧
    (bare_mpv_destroy handle).2.1.mpv = none ∧
    (bare_mpv_destroy handle).2.2 = (if handle.mpv.isSome then 1 else 0) ∧
    bare_mpv_destroy (bare_mpv_destroy handle).2.1 =
      (.ok (), (bare_mpv_destroy handle).2.1, 0) := by
  obtain ⟨m⟩ := handle
  cases m <;> simp [bare_mpv_destroy]

end BareMpv

namespace BareMpv

/-- C2: on a live engine handle, and given the engine contract that a
successful MPV_FORMAT_STRING read yields a non-NULL pointer,
bare_mpv_get_property probes double first, then flag, then string, in that
fixed order; it returns the first representation whose status is >= 0,
returns the Absent sentinel (undefined) when all three probes fail, and
never raises. -/
theorem C2_getProperty_probe_order (e : MpvEngine) (handle : bare_mpv_handle_t)
    (name : String) (hlive : handle.mpv = some ())
    (hwf : (e.getString name).1 ≥ 0 → (e.getString name).2.isSome = true) :
    ((e.getDouble name).1 ≥ 0 →
       bare_mpv_get_property e handle name = .ok (.num (e.getDouble name).2)) ∧
    (¬ (e.getDouble name).1 ≥ 0 → (e.getFlag name).1 ≥ 0 →
       bare_mpv_get_property e handle name =
         .ok (.boolean ((e.getFlag name).2 != 0))) ∧
    (¬ (e.getDouble name).1 ≥ 0 → ¬ (e.getFlag name).1 ≥ 0 →
       (e.getString name).1 ≥ 0 →
       ∃ s, (e.getString name).2 = some s ∧
         bare_mpv_get_property e handle name = .ok (.str s)) ∧
    (¬ (e.getDouble name).1 ≥ 0 → ¬ (e.getFlag name).1 ≥ 0 →
       ¬ (e.getString name).1 ≥ 0 →
       bare_mpv_get_property e handle name = .ok .undefined) ∧
    (bare_mpv_get_property e handle name).isRaise = false := by
  obtain ⟨m⟩ := handle
  cases m with
  | none => cases hlive
  | some u =>
    refine ⟨?_, ?_, ?_, ?_, ?_⟩
    · intro hd
      simp [bare_mpv_get_property, hd]
    · intro hd hf
      simp [bare_mpv_get_property, hd, hf]
    · intro hd hf hs
      obtain ⟨s, hsome⟩ := Option.isSome_iff_exists.mp (hwf hs)
      exact ⟨s, hsome, by simp [bare_mpv_get_property, hd, hf, hs, hsome]⟩
    · intro hd hf hs
      simp [bare_mpv_get_property, hd, hf, hs]
    · simp only [bare_mpv_get_property]
      split <;> first
        | rfl
        | (split <;> first | rfl | (split <;> first | rfl | (split <;> rfl)))

/-- C2 witness: on the engine oracle whose probes all fail and a live
handle, getProperty returns the Absent sentinel (undefined) and does not
raise, by the probe-order theorem applied at this concrete input. -/
theorem C2_witness :
    bare_mpv_get_property engAbsent liveEngineHandle "volume" = .ok .undefined ∧
    (bare_mpv_get_property engAbsent liveEngineHandle "volume").isRaise = false := by
  have h := C2_getProperty_probe_order engAbsent liveEngineHandle "volume" rfl
    (by decide)
  exact ⟨h.2.2.2.1 (by decide) (by decide) (by decide), h.2.2.2.2⟩

/-- C3: bare_mpv_set_property inspects the runtime type of the value once;
on a live handle a number value makes exactly one native call, to the
double setter, a boolean exactly one call to the flag setter (with flag 1
for true and 0 for false), a string exactly one call to the string setter,
each returning that call status; every other value type returns the
failure-sentinel status -1 with zero native calls. -/
theorem C3_setProperty_dispatch (e : MpvEngine) (handle : bare_mpv_handle_t)
    (name : String) (value : JsValue) (hlive : handle.mpv = some ()) :
    (∀ x, value = .num x →
       bare_mpv_set_property e handle name value = (.ok (e.setDouble name x), 1)) ∧
    (∀ b, value = .boolean b →
       bare_mpv_set_property e handle name value =
         (.ok (e.setFlag name (if b then 1 else 0)), 1)) ∧
    (∀ s, value = .str s →
       bare_mpv_set_property e handle name value = (.ok (e.setString name s), 1)) ∧
    (value.dispatchable = false →
       bare_mpv_set_property e handle name value = (.ok (-1), 0)) := by
  refine ⟨?_, ?_, ?_, ?_⟩
  · rintro x rfl
    simp [bare_mpv_set_property, hlive]
  · rintro b rfl
    simp [bare_mpv_set_property, hlive]
  · rintro s rfl
    simp [bare_mpv_set_property, hlive]
  · intro hnd
    cases value <;> first | rfl | cases hnd

/-- C3 witness: on a live handle, setting a property to the undefined value
— a runtime type outside number, boolean and string — returns the failure
sentinel -1 with zero native setter calls, by the dispatch theorem applied
at this concrete input. -/
theorem C3_witness :
    bare_mpv_set_property engAbsent liveEngineHandle "pause" .undefined =
      (.ok (-1), 0) := by
  have h := C3_setProperty_dispatch engAbsent liveEngineHandle "pause" .undefined rfl
  exact h.2.2.2 (by decide)

/-- C10: on a live handle with the double and flag probes failing, a NULL
string pointer makes getProperty return the Absent sentinel even when the
string probe status reports success, and a string value is returned only
when the status is non-negative and the pointer is non-NULL. -/
theorem C10_null_string_pointer (e : MpvEngine) (handle : bare_mpv_handle_t)
    (name : String) (hlive : handle.mpv = some ())
    (hd : ¬ (e.getDouble name).1 ≥ 0) (hf : ¬ (e.getFlag name).1 ≥ 0) :
    ((e.getString name).2 = none →
       bare_mpv_get_property e handle name = .ok .undefined) ∧
    (∀ s, bare_mpv_get_property e handle name = .ok (.str s) →
       (e.getString name).1 ≥ 0 ∧ (e.getString name).2 = some s) := by
  obtain ⟨m⟩ := handle
  cases m with
  | none => cases hlive
  | some u =>
    constructor
    · intro hnull
      by_cases hs : (e.getString name).1 ≥ 0 <;>
        simp [bare_mpv_get_property, hd, hf, hs, hnull]
    · intro s hres
      by_cases hs : (e.getString name).1 ≥ 0
      · rcases hsome : (e.getString name).2 with _ | t
        · simp [bare_mpv_get_property, hd, hf, hs, hsome] at hres
        · refine ⟨hs, ?_⟩
          simp [bare_mpv_get_property, hd, hf, hs, hsome] at hres
          simp [hres]
      · simp [bare_mpv_get_property, hd, hf, hs] at hres

/-- C10 witness: on the engine oracle whose string probe reports status 0
with a NULL pointer (double and flag probes failing), getProperty on a live
handle returns the Absent sentinel, by the theorem applied at this concrete
input. -/
theorem C10_witness :
    bare_mpv_get_property engNullStr liveEngineHandle "path" = .ok .undefined := by
  have h := C10_null_string_pointer engNullStr liveEngineHandle "path" rfl
    (by decide) (by decide)
  exact h.1 rfl

end BareMpv

namespace BareMpv

/-- C4: bare_mpv_render_frame returns the null sentinel exactly when the
context or buffer reference is absent or the native render status is
negative — the two failure cases produce the literally identical null
result — and in the absent case it returns at once with the heap untouched
and its result independent of any native render outcome (no native call is
made). -/
theorem C4_renderFrame_null_cases (status : Int) (frame : List Nat) (hp : Heap)
    (handle : bare_mpv_render_t) :
    ((bare_mpv_render_frame status frame hp handle).1 = .ok none ↔
       handle.ctx = none ∨ handle.buffer = none ∨ status < 0) ∧
    (handle.ctx = none ∨ handle.buffer = none →
       bare_mpv_render_frame status frame hp handle = (.ok none, hp, handle)) := by
  obtain ⟨c, w, hgt, bu⟩ := handle
  cases c with
  | none =>
    cases bu <;> exact ⟨by simp [bare_mpv_render_frame], fun _ => rfl⟩
  | some u =>
    cases bu with
    | none => exact ⟨by simp [bare_mpv_render_frame], fun _ => rfl⟩
    | some b =>
      constructor
      · by_cases hst : status < 0 <;> simp [bare_mpv_render_frame, hst]
      · intro hcontra
        rcases hcontra with hcontra | hcontra <;> simp at hcontra

/-- Single-step preservation of the render handle dimensions: no
post-creation operation writes the width or height field. -/
theorem renderOp_dims_invariant (op : RenderOp) (hp : Heap)
    (handle : bare_mpv_render_t) :
    (applyRenderOp hp handle op).2.width = handle.width ∧
    (applyRenderOp hp handle op).2.height = handle.height := by
  obtain ⟨c, w, hgt, bu⟩ := handle
  cases op with
  | frame s f =>
    cases c <;> cases bu <;>
      simp only [applyRenderOp, bare_mpv_render_frame] <;>
      first
        | exact ⟨trivial, trivial⟩
        | (split <;> exact ⟨rfl, rfl⟩)
  | update p =>
    cases c <;>
      simp [applyRenderOp, bare_mpv_render_update, mpv_render_context_update]
  | free =>
    cases c <;> cases bu <;> simp [applyRenderOp, bare_mpv_render_free]

/-- Dimension preservation over any sequence of post-creation operations. -/
theorem renderOps_dims_invariant (ops : List RenderOp) :
    ∀ (hp : Heap) (handle : bare_mpv_render_t),
      (applyRenderOps hp handle ops).2.width = handle.width ∧
      (applyRenderOps hp handle ops).2.height = handle.height := by
  induction ops with
  | nil => intro hp handle; exact ⟨rfl, rfl⟩
  | cons op rest ih =>
    intro hp handle
    have h1 := renderOp_dims_invariant op hp handle
    have h2 := ih (applyRenderOp hp handle op).1 (applyRenderOp hp handle op).2
    simp only [applyRenderOps]
    exact ⟨h2.1.trans h1.1, h2.2.trans h1.2⟩

/-- C9: on a live engine handle, when the native context creation succeeds,
bare_mpv_render_create records the requested width and height, allocates
the internal buffer with exactly width*height*4 bytes, and no sequence of
subsequent renderFrame, renderUpdate or renderFree operations ever changes
the recorded dimensions. -/
theorem C9_dimensions_immutable (eh : bare_mpv_handle_t) (cs : Int) (hp : Heap)
    (w h : Int) (hlive : eh.mpv = some ()) (hcs : ¬ cs < 0) :
    ∃ st, (bare_mpv_render_create eh cs hp w h).1 = .ok st ∧
      st.width = w ∧ st.height = h ∧
      (∃ i, st.buffer = some i ∧
        ((bare_mpv_render_create eh cs hp w h).2.read i).length = bufSize w h) ∧
      ∀ (ops : List RenderOp) (hp2 : Heap),
        (applyRenderOps hp2 st ops).2.width = w ∧
        (applyRenderOps hp2 st ops).2.height = h := by
  obtain ⟨m⟩ := eh
  dsimp only at hlive
  subst hlive
  refine ⟨{ ctx := some (), width := w, height := h,
            buffer := some hp.cells.length }, ?_, rfl, rfl, ?_, ?_⟩
  · simp [bare_mpv_render_create, hcs, Heap.alloc]
  · refine ⟨hp.cells.length, rfl, ?_⟩
    have hy : (bare_mpv_render_create ⟨some ()⟩ cs hp w h).2 =
        (hp.alloc (List.replicate (bufSize w h) 0)).1 := by
      simp [bare_mpv_render_create, hcs]
    have hr : (hp.alloc (List.replicate (bufSize w h) 0)).1.read hp.cells.length =
        List.replicate (bufSize w h) 0 :=
      heap_read_alloc_self hp (List.replicate (bufSize w h) 0)
    rw [hy, hr]
    simp
  · intro ops hp2
    exact renderOps_dims_invariant ops hp2 _

/-- C9 witness: creating a 2-by-3 render handle on a live engine with a
successful native status yields recorded dimensions 2 and 3, a 24-byte
internal buffer, and dimensions invariant under every operation sequence,
by the immutability theorem applied at this concrete input. -/
theorem C9_witness :
    ∃ st, (bare_mpv_render_create liveEngineHandle 0 { cells := [] } 2 3).1 =
        .ok st ∧
      st.width = 2 ∧ st.height = 3 ∧
      (∃ i, st.buffer = some i ∧
        ((bare_mpv_render_create liveEngineHandle 0 { cells := [] } 2 3).2.read
          i).length = bufSize 2 3) ∧
      ∀ (ops : List RenderOp) (hp2 : Heap),
        (applyRenderOps hp2 st ops).2.width = 2 ∧
        (applyRenderOps hp2 st ops).2.height = 3 :=
  C9_dimensions_immutable liveEngineHandle 0 { cells := [] } 2 3 rfl (by decide)

end BareMpv

namespace BareMpv

/-- C5: on a live render handle with a valid internal buffer, two
successive successful renderFrame calls return two freshly allocated
buffers: each holds exactly width*height*4 bytes equal to the internal
buffer contents at its call (the frame the native render deposited), the
returned indices differ from the internal buffer index and from each
other, the first returned buffer still holds its frame after the second
call, and overwriting either returned buffer leaves the other unchanged. -/
theorem C5_renderFrame_fresh_copies (s1 s2 : Int) (f1 f2 : List Nat) (hp : Heap)
    (handle : bare_mpv_render_t) (b : Nat)
    (hc : handle.ctx = some ()) (hb : handle.buffer = some b)
    (hbv : b < hp.cells.length) (hs1 : ¬ s1 < 0) (hs2 : ¬ s2 < 0)
    (hf1 : f1.length = bufSize handle.width handle.height)
    (hf2 : f2.length = bufSize handle.width handle.height) :
    frameOut s1 f1 hp handle = .ok (some hp.cells.length) ∧
    frameOut s2 f2 (frameHeap s1 f1 hp handle) handle =
      .ok (some (hp.cells.length + 1)) ∧
    hp.cells.length ≠ b ∧
    hp.cells.length + 1 ≠ b ∧
    (frameHeap s2 f2 (frameHeap s1 f1 hp handle) handle).read hp.cells.length = f1 ∧
    (frameHeap s2 f2 (frameHeap s1 f1 hp handle) handle).read
      (hp.cells.length + 1) = f2 ∧
    ((frameHeap s2 f2 (frameHeap s1 f1 hp handle) handle).read
      hp.cells.length).length = bufSize handle.width handle.height ∧
    (∀ x, ((frameHeap s2 f2 (frameHeap s1 f1 hp handle) handle).write
        hp.cells.length x).read (hp.cells.length + 1) =
      (frameHeap s2 f2 (frameHeap s1 f1 hp handle) handle).read
        (hp.cells.length + 1)) ∧
    (∀ x, ((frameHeap s2 f2 (frameHeap s1 f1 hp handle) handle).write
        (hp.cells.length + 1) x).read hp.cells.length =
      (frameHeap s2 f2 (frameHeap s1 f1 hp handle) handle).read
        hp.cells.length) := by
  obtain ⟨c, w, hgt, bu⟩ := handle
  dsimp only at hc hb hf1 hf2 ⊢
  subst hc; subst hb
  have htake1 : List.take (bufSize w hgt) f1 = f1 := by
    rw [← hf1]; simp
  have htake2 : List.take (bufSize w hgt) f2 = f2 := by
    rw [← hf2]; simp
  have hwlen1 : (hp.write b f1).cells.length = hp.cells.length :=
    heap_write_length hp b f1
  have hstep1 : bare_mpv_render_frame s1 f1 hp
      { ctx := some (), width := w, height := hgt, buffer := some b } =
      (.ok (some hp.cells.length), ((hp.write b f1).alloc f1).1,
       { ctx := some (), width := w, height := hgt, buffer := some b }) := by
    simp only [bare_mpv_render_frame, if_neg hs1,
      heap_read_write_self hp b f1 hbv, htake1]
    simp [Heap.alloc, hwlen1]
  have hh1 : frameHeap s1 f1 hp
      { ctx := some (), width := w, height := hgt, buffer := some b } =
      ((hp.write b f1).alloc f1).1 := by
    simp [frameHeap, hstep1]
  have hlen1 : ((hp.write b f1).alloc f1).1.cells.length = hp.cells.length + 1 := by
    rw [heap_alloc_length, hwlen1]
  have hbv1 : b < ((hp.write b f1).alloc f1).1.cells.length := by
    rw [hlen1]; omega
  have hwlen2 : ((((hp.write b f1).alloc f1).1).write b f2).cells.length =
      hp.cells.length + 1 := by
    rw [heap_write_length, hlen1]
  have hstep2 : bare_mpv_render_frame s2 f2 ((hp.write b f1).alloc f1).1
      { ctx := some (), width := w, height := hgt, buffer := some b } =
      (.ok (some (hp.cells.length + 1)),
       (((((hp.write b f1).alloc f1).1).write b f2).alloc f2).1,
       { ctx := some (), width := w, height := hgt, buffer := some b }) := by
    simp only [bare_mpv_render_frame, if_neg hs2,
      heap_read_write_self ((hp.write b f1).alloc f1).1 b f2 hbv1, htake2]
    simp [Heap.alloc, Heap.write, hwlen1]
  have hh2 : frameHeap s2 f2 ((hp.write b f1).alloc f1).1
      { ctx := some (), width := w, height := hgt, buffer := some b } =
      (((((hp.write b f1).alloc f1).1).write b f2).alloc f2).1 := by
    simp [frameHeap, hstep2]
  have hreadL : (((((hp.write b f1).alloc f1).1).write b f2).alloc f2).1.read
      hp.cells.length = f1 := by
    have h1 : (((((hp.write b f1).alloc f1).1).write b f2).alloc f2).1.read
        hp.cells.length =
        ((((hp.write b f1).alloc f1).1).write b f2).read hp.cells.length :=
      heap_read_alloc_old _ f2 hp.cells.length (by rw [hwlen2]; omega)
    have h2 : ((((hp.write b f1).alloc f1).1).write b f2).read hp.cells.length =
        ((hp.write b f1).alloc f1).1.read hp.cells.length :=
      heap_read_write_ne _ b hp.cells.length f2 (by omega)
    have h3 : ((hp.write b f1).alloc f1).1.read hp.cells.length = f1 := by
      have h := heap_read_alloc_self (hp.write b f1) f1
      rwa [hwlen1] at h
    rw [h1, h2, h3]
  have hreadL1 : (((((hp.write b f1).alloc f1).1).write b f2).alloc f2).1.read
      (hp.cells.length + 1) = f2 := by
    have h := heap_read_alloc_self ((((hp.write b f1).alloc f1).1).write b f2) f2
    rwa [hwlen2] at h
  refine ⟨?_, ?_, by omega, by omega, ?_, ?_, ?_, ?_, ?_⟩
  · simp [frameOut, hstep1]
  · rw [hh1]; simp [frameOut, hstep2]
  · rw [hh1, hh2]; exact hreadL
  · rw [hh1, hh2]; exact hreadL1
  · rw [hh1, hh2, hreadL, hf1]
  · intro x
    rw [hh1, hh2]
    exact heap_read_write_ne _ hp.cells.length (hp.cells.length + 1) x (by omega)
  · intro x
    rw [hh1, hh2]
    exact heap_read_write_ne _ (hp.cells.length + 1) hp.cells.length x (by omega)

/-- C5 witness: on a one-pixel render handle over a one-cell heap, two
successful renderFrame calls with frames [1,2,3,4] and [5,6,7,8] return the
fresh buffer indices 1 and 2, distinct from the internal buffer 0 and from
each other, holding their own 4-byte frames, with mutation of either copy
leaving the other unchanged — by the fresh-copies theorem applied at this
concrete input. -/
theorem C5_witness :
    frameOut 0 [1, 2, 3, 4] { cells := [List.replicate 4 0] }
      { ctx := some (), width := 1, height := 1, buffer := some 0 } =
        .ok (some 1) ∧
    frameOut 0 [5, 6, 7, 8]
      (frameHeap 0 [1, 2, 3, 4] { cells := [List.replicate 4 0] }
        { ctx := some (), width := 1, height := 1, buffer := some 0 })
      { ctx := some (), width := 1, height := 1, buffer := some 0 } =
        .ok (some 2) ∧
    (frameHeap 0 [5, 6, 7, 8]
      (frameHeap 0 [1, 2, 3, 4] { cells := [List.replicate 4 0] }
        { ctx := some (), width := 1, height := 1, buffer := some 0 })
      { ctx := some (), width := 1, height := 1, buffer := some 0 }).read 1 =
        [1, 2, 3, 4] ∧
    (frameHeap 0 [5, 6, 7, 8]
      (frameHeap 0 [1, 2, 3, 4] { cells := [List.replicate 4 0] }
        { ctx := some (), width := 1, height := 1, buffer := some 0 })
      { ctx := some (), width := 1, height := 1, buffer := some 0 }).read 2 =
        [5, 6, 7, 8] := by
  have h := C5_renderFrame_fresh_copies 0 0 [1, 2, 3, 4] [5, 6, 7, 8]
    { cells := [List.replicate 4 0] }
    { ctx := some (), width := 1, height := 1, buffer := some 0 } 0
    rfl rfl (by decide) (by decide) (by decide) (by decide) (by decide)
  exact ⟨h.1, h.2.1, h.2.2.2.2.1, h.2.2.2.2.2.1⟩

end BareMpv
